import Mathlib

/-!
Verification of the pos-vendas-ecommerce analytics/admin module.

Shallow embedding of the backend controllers, routes and the browser-side
logging client.  JavaScript record fields that may be absent are modelled as
`Option`; JS string falsiness (absent or `""`) is made explicit through
`truthyStr`.  Machine floats used for the derived percentages are modelled as
rationals, with `Number.prototype.toFixed(2)` followed by `parseFloat`
modelled as rounding to the nearest multiple of `1/100` (ties upward, which
agrees with `toFixed` on the non-negative values arising here).
-/

namespace PosVendas

/-- JS truthiness of an optional string field of a parsed JSON body:
`undefined` and the empty string are falsy, every other string is truthy. -/
def truthyStr : Option String → Bool
  | none => false
  | some s => s ≠ ""

/-! ### Event ingestion (backend/logs/logController.js, `logEvent`) -/

/-- Free-form `eventData` payload.  The controller only tests its presence;
a string map is enough structure for the claims considered here.  (A client
could also send a falsy primitive such as `0` for `eventData`; the model
identifies "present" with "a truthy object", which is the shape the logging
client always sends.) -/
abbrev EventData := List (String × String)

/-- Parsed body (plus transport metadata) of a `POST /api/logs/event`
request, mirroring the fields destructured in `logEvent`. -/
structure LogEventRequest where
  eventType : Option String
  userId : Option String
  sessionId : Option String
  eventData : Option EventData
  pageUrl : Option String
  referrer : Option String
  userAgent : String
  ipAddress : String
deriving DecidableEq

/-- An `Event` document as constructed by `logEvent` and persisted by
`event.save()` (eventModel.js); immutable once written. -/
structure StoredEvent where
  eventType : String
  userId : String
  isAuthenticated : Bool
  sessionId : String
  eventData : EventData
  userAgent : String
  ipAddress : String
  pageUrl : String
  referrer : String
deriving DecidableEq

/-- Observable outcome of one `logEvent` call: HTTP status, the `success`
flag of the JSON envelope, and the list of Event documents persisted by the
call (empty or a singleton). -/
structure LogEventOutcome where
  status : Nat
  success : Bool
  persisted : List StoredEvent
deriving DecidableEq

/-- The Event document built by `new Event({...})` in `logEvent`:
`userId: userId || 'anonymous'`, `isAuthenticated: !!userId`,
`pageUrl: req.body.pageUrl || ''`, `referrer: req.body.referrer || ''`. -/
def eventOf (req : LogEventRequest) : StoredEvent :=
  { eventType := req.eventType.getD ""
    userId := if truthyStr req.userId then req.userId.getD "" else "anonymous"
    isAuthenticated := truthyStr req.userId
    sessionId := req.sessionId.getD ""
    eventData := req.eventData.getD []
    userAgent := req.userAgent
    ipAddress := req.ipAddress
    pageUrl := if truthyStr req.pageUrl then req.pageUrl.getD "" else ""
    referrer := if truthyStr req.referrer then req.referrer.getD "" else "" }

/-- Embedding of `logController.logEvent`.  The guard
`if (!eventType || !sessionId || !eventData)` rejects with 400 before
anything is saved; otherwise the document `eventOf req` is saved and the
endpoint answers 201. -/
def logEvent (req : LogEventRequest) : LogEventOutcome :=
  if !truthyStr req.eventType || !truthyStr req.sessionId || req.eventData.isNone then
    { status := 400, success := false, persisted := [] }
  else
    { status := 201, success := true, persisted := [eventOf req] }

/-- Sample valid ingestion request carrying a `userId` (used to instantiate
the C1 theorem). -/
def reqWithUser : LogEventRequest :=
  { eventType := some "purchase"
    userId := some "u1"
    sessionId := some "s1"
    eventData := some [("productId", "p1")]
    pageUrl := some "/checkout"
    referrer := none
    userAgent := "UA"
    ipAddress := "127.0.0.1" }

/-! ### Logging client (frontend/utils/loggerClient.js) -/

/-- One queued client-side event, as built by `LoggerClient.logEvent`. -/
structure ClientEvent where
  eventType : String
  sessionId : String
  userId : Option String
  timestamp : String
  severity : String
  data : EventData
  url : String
  userAgent : String
deriving DecidableEq

/-- The mutable state of a `LoggerClient` instance that `flush` can read or
write (configuration fields included so the frame of `flush` is visible). -/
structure LoggerState where
  apiUrl : String
  debug : Bool
  sessionId : String
  userId : Option String
  eventQueue : List ClientEvent
  flushInterval : Nat
deriving DecidableEq

/-- Outcome of the network interaction of one flush: the `fetch` resolves
with an ok response, resolves with a non-ok response (which `flush` turns
into a thrown `Error`), or rejects (network failure). -/
inductive NetOutcome
  | ok
  | httpError (code : Nat)
  | netFail
deriving DecidableEq

/-- Is this network outcome one of the two failure modes handled by the
`catch` block of `flush`? -/
def NetOutcome.isFailure : NetOutcome → Bool
  | .ok => false
  | .httpError _ => true
  | .netFail => true

/-- What the promise returned by `flush` signals to the caller. -/
inductive FlushResult
  | resolvedEmpty
  | beaconHandoff
  | success
  | failure
deriving DecidableEq

/-- Full observable outcome of one `flush` call: the client state after the
call, whether a network send was attempted, whether the configured
`errorHandler` was invoked, and the promise result. -/
structure FlushOutcome where
  state : LoggerState
  sendAttempted : Bool
  errorHandlerCalled : Bool
  result : FlushResult
deriving DecidableEq

/-- Embedding of `LoggerClient.flush`.  `arrivals` are the events appended
by `logEvent` calls that interleave with the awaited request (the queue is
copied and cleared before the send, so such events land on the emptied
queue).  On the beacon path (`sync` and `navigator.sendBeacon` available)
the batch is handed to the browser and the call returns without a catch
handler.  On a fetch failure the `catch` block restores
`[...events, ...this.eventQueue]` and calls the error handler, and the
promise rejects. -/
def flush (st : LoggerState) (sync beaconAvailable : Bool)
    (net : NetOutcome) (arrivals : List ClientEvent) : FlushOutcome :=
  if st.eventQueue = [] then
    { state := st, sendAttempted := false, errorHandlerCalled := false
      result := .resolvedEmpty }
  else
    let events := st.eventQueue
    if sync && beaconAvailable then
      { state := { st with eventQueue := arrivals }, sendAttempted := true
        errorHandlerCalled := false, result := .beaconHandoff }
    else
      match net with
      | .ok =>
          { state := { st with eventQueue := arrivals }, sendAttempted := true
            errorHandlerCalled := false, result := .success }
      | .httpError _ =>
          { state := { st with eventQueue := events ++ arrivals }
            sendAttempted := true, errorHandlerCalled := true, result := .failure }
      | .netFail =>
          { state := { st with eventQueue := events ++ arrivals }
            sendAttempted := true, errorHandlerCalled := true, result := .failure }

/-- A sample queued event used to instantiate the flush theorems. -/
def sampleClientEvent : ClientEvent :=
  { eventType := "page_view", sessionId := "sess_a", userId := none
    timestamp := "2026-01-01T00:00:00.000Z", severity := "info"
    data := [("pageTitle", "Home")], url := "http://localhost/", userAgent := "UA" }

/-- A second sample event, logged while a flush is in flight. -/
def sampleClientEvent2 : ClientEvent :=
  { sampleClientEvent with eventType := "product_view", data := [("productId", "p1")] }

/-- A sample logger state with one queued event. -/
def sampleLoggerState : LoggerState :=
  { apiUrl := "http://localhost:3001/api/logs", debug := false
    sessionId := "sess_a", userId := none
    eventQueue := [sampleClientEvent], flushInterval := 10000 }

/-! ### Auth middleware (backend/middleware/authMiddleware.js) and log routes -/

/-- Payload of a verified JWT, as signed by `userController.login`. -/
structure TokenClaims where
  id : String
  name : String
  email : String
  role : String
deriving DecidableEq

/-- Decision of an auth middleware: reject with a status and message, or
attach the decoded claims to the request and call `next()`. -/
inductive AuthDecision
  | reject (status : Nat) (message : String)
  | allow (claims : TokenClaims)
deriving DecidableEq

/-- Embedding of `isAuthenticated`: the `Authorization` header must exist
and start with `Bearer `; the second space-separated component is then
decoded (`verify` abstracts `jwt.verify` against the configured secret,
returning `none` on an invalid or expired token, which the catch block
turns into a 401). -/
def isAuthenticated (verify : String → Option TokenClaims)
    (authHeader : Option String) : AuthDecision :=
  match authHeader with
  | none => .reject 401 "Acesso não autorizado. Token não fornecido."
  | some h =>
      if h.startsWith "Bearer " then
        match verify ((h.splitOn " ").getD 1 "") with
        | some claims => .allow claims
        | none => .reject 401 "Acesso não autorizado. Token inválido ou expirado."
      else .reject 401 "Acesso não autorizado. Token não fornecido."

/-- Embedding of `isAdmin`: run `isAuthenticated`, then require the role
claim to equal `admin`, rejecting with 403 otherwise. -/
def isAdmin (verify : String → Option TokenClaims)
    (authHeader : Option String) : AuthDecision :=
  match isAuthenticated verify authHeader with
  | .allow claims =>
      if claims.role = "admin" then .allow claims
      else .reject 403 "Acesso proibido. Permissões de administrador necessárias."
  | .reject s m => .reject s m

/-- The middleware functions exported by authMiddleware.js. -/
inductive Middleware
  | authenticatedMW
  | adminMW
deriving DecidableEq

/-- Run one middleware on a request's `Authorization` header. -/
def runMiddleware (verify : String → Option TokenClaims)
    (authHeader : Option String) : Middleware → AuthDecision
  | .authenticatedMW => isAuthenticated verify authHeader
  | .adminMW => isAdmin verify authHeader

/-- The routes registered in api/routes/logRoutes.js. -/
inductive LogRoute
  | postEvent
  | eventsByType
  | counts
  | mostViewed
  | funnel
deriving DecidableEq

/-- Middleware chain each log route is registered with.  In logRoutes.js
every route is mounted with the bare controller —
`router.get('/counts', logController.getEventCounts)` and so on — and
server.js mounts the router as `app.use('/api/logs', logRoutes)` with no
auth middleware either, so every chain is empty (contrast
admin/routes/productRoutes.js, where each registration lists `isAdmin`). -/
def logRouteMiddleware : LogRoute → List Middleware
  | .postEvent => []
  | .eventsByType => []
  | .counts => []
  | .mostViewed => []
  | .funnel => []

/-- Fate of a request once its route's middleware chain has run. -/
inductive RequestFate
  | rejected (status : Nat)
  | reachesHandler
deriving DecidableEq

/-- Express runs the chain left to right; the first rejecting middleware
ends the request, otherwise the controller handler runs. -/
def runChain (verify : String → Option TokenClaims) (authHeader : Option String) :
    List Middleware → RequestFate
  | [] => .reachesHandler
  | mw :: rest =>
      match runMiddleware verify authHeader mw with
      | .allow _ => runChain verify authHeader rest
      | .reject s _ => .rejected s

/-- Fate of a request to a log route. -/
def dispatchLogRoute (verify : String → Option TokenClaims)
    (route : LogRoute) (authHeader : Option String) : RequestFate :=
  runChain verify authHeader (logRouteMiddleware route)

/-- A verifier under which no token decodes (models a request carrying no
valid token for the configured secret). -/
def rejectAllTokens : String → Option TokenClaims := fun _ => none

/-! ### Statistics service (backend/api/controllers/statsController.js) -/

/-- Model of `parseFloat(x.toFixed(2))` on the non-negative magnitudes
produced here: round to the nearest hundredth, ties upward. -/
def round2 (q : ℚ) : ℚ := (Int.floor (q * 100 + 1 / 2) : ℚ) / 100

/-- Per-type event counts of the query window, as produced by the six
`Event.countDocuments` queries of `getOverviewStats`. -/
structure EventCounts where
  totalEvents : Nat
  productViews : Nat
  productCustomizations : Nat
  cartAdds : Nat
  checkoutStarts : Nat
  checkoutCompletes : Nat
deriving DecidableEq

/-- Conversion-rate formula of `getOverviewStats`:
`productViews > 0 ? (checkoutCompletes / productViews) * 100 : 0`. -/
def conversionRate (productViews checkoutCompletes : Nat) : ℚ :=
  if 0 < productViews then (checkoutCompletes : ℚ) / productViews * 100 else 0

/-- Cart-abandonment formula of `getOverviewStats`:
`cartAdds > 0 ? ((cartAdds - checkoutCompletes) / cartAdds) * 100 : 0`. -/
def cartAbandonmentRate (cartAdds checkoutCompletes : Nat) : ℚ :=
  if 0 < cartAdds then ((cartAdds : ℚ) - checkoutCompletes) / cartAdds * 100 else 0

/-- The `stats` object of the overview response. -/
structure OverviewStats where
  totalEvents : Nat
  productViews : Nat
  productCustomizations : Nat
  cartAdds : Nat
  checkoutStarts : Nat
  checkoutCompletes : Nat
  conversionRate : ℚ
  cartAbandonmentRate : ℚ
deriving DecidableEq

/-- The hardcoded `overviewStats` object returned when
`utils/data/dashboard.json` exists. -/
def mockOverviewStats : OverviewStats :=
  { totalEvents := 1000, productViews := 450, productCustomizations := 200
    cartAdds := 300, checkoutStarts := 150, checkoutCompletes := 100
    conversionRate := 22.2, cartAbandonmentRate := 66.7 }

/-- The database-backed `stats` object (the branch taken when no mock file
exists), with both ratios passed through `parseFloat(x.toFixed(2))`. -/
def computedOverviewStats (c : EventCounts) : OverviewStats :=
  { totalEvents := c.totalEvents, productViews := c.productViews
    productCustomizations := c.productCustomizations, cartAdds := c.cartAdds
    checkoutStarts := c.checkoutStarts, checkoutCompletes := c.checkoutCompletes
    conversionRate := round2 (conversionRate c.productViews c.checkoutCompletes)
    cartAbandonmentRate := round2 (cartAbandonmentRate c.cartAdds c.checkoutCompletes) }

/-- The JSON envelope of a `GET /api/stats/overview` response: status, the
top-level keys in emission order, the `success` flag and the `stats`
payload.  Neither branch of the code emits any further key (in particular
no degraded-mode marker). -/
structure OverviewResponse where
  status : Nat
  success : Bool
  responseKeys : List String
  stats : OverviewStats
deriving DecidableEq

/-- Embedding of `getOverviewStats`: when `utils/data/dashboard.json`
exists the hardcoded mock stats are returned, otherwise the six counts are
queried and the two ratios derived; both branches answer
`200 {success, period, stats}`. -/
def getOverviewStats (mockFileExists : Bool) (c : EventCounts) : OverviewResponse :=
  if mockFileExists then
    { status := 200, success := true
      responseKeys := ["success", "period", "stats"], stats := mockOverviewStats }
  else
    { status := 200, success := true
      responseKeys := ["success", "period", "stats"], stats := computedOverviewStats c }

/-- The JSON envelope of a `GET /api/stats/dashboard` response.  Its
payload is irrelevant to the claims considered; what matters is that the
envelope is `200 {success, dashboardData}` on the mock-file branch and on
the generated/real branch alike. -/
structure DashboardResponse where
  status : Nat
  success : Bool
  responseKeys : List String
deriving DecidableEq

/-- Embedding of the response envelope of `getDashboardData`: both the
`fs.existsSync` mock-file branch and the `_getRealStats` plus
`_generateMockData` branch return `200 {success:true, dashboardData}`; the
degraded-mode notice is a server-side `console.log` only. -/
def getDashboardData (mockFileExists : Bool) : DashboardResponse :=
  if mockFileExists then
    { status := 200, success := true, responseKeys := ["success", "dashboardData"] }
  else
    { status := 200, success := true, responseKeys := ["success", "dashboardData"] }

/-- Arbitrary counts used when comparing the two branches of
`getOverviewStats`. -/
def zeroCounts : EventCounts :=
  { totalEvents := 0, productViews := 0, productCustomizations := 0
    cartAdds := 0, checkoutStarts := 0, checkoutCompletes := 0 }

/-- Sample counts with completes below views and adds, instantiating the
C5 theorem. -/
def sampleOverviewCounts : EventCounts :=
  { totalEvents := 60, productViews := 10, productCustomizations := 5
    cartAdds := 8, checkoutStarts := 6, checkoutCompletes := 4 }

/-- The fixed ordered funnel stage list of `getFunnelData`
(logs/logController.js). -/
def funnelStages : List String :=
  ["product_view", "product_customize", "cart_add", "checkout_start",
   "checkout_complete"]

/-- Stage-to-stage rate of `getFunnelData`:
`funnelData[cur] > 0 ? (funnelData[next] / funnelData[cur]) * 100 : 0`,
then `parseFloat(rate.toFixed(2))`. -/
def stageRate (cur next : Nat) : ℚ :=
  round2 (if 0 < cur then (next : ℚ) / cur * 100 else 0)

/-- The `conversionRates` association list built by the loop
`for (let i = 0; i < funnelStages.length - 1; i++)`, keyed
`currentStage_to_nextStage`; `count` gives the per-stage event count of
the window. -/
def funnelConversionRates (count : String → Nat) : List (String × ℚ) :=
  (List.range (funnelStages.length - 1)).map fun i =>
    let cur := funnelStages.getD i ""
    let next := funnelStages.getD (i + 1) ""
    (cur ++ "_to_" ++ next, stageRate (count cur) (count next))

/-- Sample per-stage counts whose cart_add stage is empty, instantiating
the funnel theorem at its division guard. -/
def sampleFunnelCounts : String → Nat := fun s =>
  if s = "product_view" then 40
  else if s = "product_customize" then 10
  else 0

/-- The `deviceUsage` normalization of `_generateMockData`: the three
drawn integer shares (`Math.floor(Math.random()*30)+30` for Desktop and
Mobile, `Math.floor(Math.random()*10)+5` for Tablet) are each divided by
their joint sum, scaled to 100 and passed through
`parseFloat(x.toFixed(2))`. -/
def deviceUsage (desktop mobile tablet : Nat) : List (String × ℚ) :=
  let total : ℚ := (desktop : ℚ) + mobile + tablet
  [("Desktop", round2 ((desktop : ℚ) / total * 100)),
   ("Mobile", round2 ((mobile : ℚ) / total * 100)),
   ("Tablet", round2 ((tablet : ℚ) / total * 100))]

/-! ### Product update (admin/controllers/productController.js) -/

/-- A form-data field value as express and multer deliver it to the
controller: a string, a boolean (when a JS boolean reaches the body), or
absent. -/
inductive FormValue
  | str (s : String)
  | boolean (b : Bool)
  | absent
deriving DecidableEq

/-- The guard
`updateData.keepImages === 'true' || updateData.keepImages === true`. -/
def keepImagesTrue : FormValue → Bool
  | .str s => s = "true"
  | .boolean b => b
  | .absent => false

/-- Relative URL recorded for one uploaded file:
`/uploads/products/${file.filename}`. -/
def uploadPath (filename : String) : String := "/uploads/products/" ++ filename

/-- The stored `images` array after `updateProduct`: if at least one file
was uploaded (`req.files && req.files.length > 0`), the new upload paths
are appended to or replace the prior array according to `keepImages`; with
no files the `images` key is never placed into `$set`, so the stored array
is unchanged. -/
def updatedImages (priorImages : List String) (keepImages : FormValue)
    (files : List String) : List String :=
  if 0 < files.length then
    let newImages := files.map uploadPath
    if keepImagesTrue keepImages then priorImages ++ newImages else newImages
  else priorImages

/-! ### Admin users (admin/controllers/userController.js, models/userModel.js) -/

/-- A User document at rest; the `password` field holds the bcrypt hash
(rehashed by the pre-save hook whenever the plaintext field changes). -/
structure StoredUser where
  id : String
  name : String
  email : String
  password : String
  role : String
  isActive : Bool
  createdAt : String
  updatedAt : String
deriving DecidableEq

/-- The safe projection returned by `toSafeObject`: all fields except the
password. -/
structure SafeUser where
  id : String
  name : String
  email : String
  role : String
  isActive : Bool
  createdAt : String
  updatedAt : String
deriving DecidableEq

/-- Embedding of `userSchema.methods.toSafeObject`. -/
def toSafeObject (u : StoredUser) : SafeUser :=
  { id := u.id, name := u.name, email := u.email, role := u.role
    isActive := u.isActive, createdAt := u.createdAt, updatedAt := u.updatedAt }

/-- Mongoose `User.findOne({email})` over the collection. -/
def findUserByEmail (users : List StoredUser) (email : String) : Option StoredUser :=
  users.find? fun u => u.email = email

/-- The login response envelope: status, success flag, message, and the
optional token payload and safe user of the success branch. -/
structure LoginResponse where
  status : Nat
  success : Bool
  message : String
  token : Option TokenClaims
  user : Option SafeUser
deriving DecidableEq

/-- Embedding of `userController.login`; `checkPassword` abstracts
`bcrypt.compare(candidatePassword, this.password)`. -/
def login (checkPassword : String → String → Bool) (users : List StoredUser)
    (email password : String) : LoginResponse :=
  match findUserByEmail users email with
  | none =>
      { status := 401, success := false, message := "Email ou senha inválidos"
        token := none, user := none }
  | some u =>
      if !u.isActive then
        { status := 401, success := false
          message := "Conta desativada. Entre em contato com o administrador."
          token := none, user := none }
      else if !(checkPassword password u.password) then
        { status := 401, success := false, message := "Email ou senha inválidos"
          token := none, user := none }
      else
        { status := 200, success := true, message := "Login realizado com sucesso"
          token := some { id := u.id, name := u.name, email := u.email, role := u.role }
          user := some (toSafeObject u) }

/-- A sample stored admin account, instantiating the login theorem. -/
def aliceUser : StoredUser :=
  { id := "u1", name := "Alice", email := "alice@example.com"
    password := "hash-of-correct", role := "admin", isActive := true
    createdAt := "2026-01-01", updatedAt := "2026-01-01" }

/-- A password check standing in for bcrypt.compare in the witness: the
candidate matches exactly when it equals the stored tag. -/
def plainCheck : String → String → Bool := fun candidate stored =>
  candidate = stored

end PosVendas

namespace PosVendas

/-- C1: a `POST /api/logs/event` request missing (JS-falsy) `eventType`,
`sessionId` or `eventData` is answered 400 with `success:false` and persists
nothing; any other request persists exactly one Event whose `userId` is the
request's (truthy) `userId` — or the sentinel `"anonymous"` when no truthy
`userId` is provided — whose `isAuthenticated` is the truthiness of the
provided `userId`, and is answered 201 with `success:true`. -/
theorem logEvent_validates_and_persists (req : LogEventRequest) :
    ((truthyStr req.eventType = false ∨ truthyStr req.sessionId = false ∨
        req.eventData = none) →
      (logEvent req).status = 400 ∧ (logEvent req).success = false ∧
        (logEvent req).persisted = []) ∧
    (truthyStr req.eventType = true → truthyStr req.sessionId = true →
      req.eventData ≠ none →
      (logEvent req).status = 201 ∧ (logEvent req).success = true ∧
        ∃ e : StoredEvent, (logEvent req).persisted = [e] ∧
          e.isAuthenticated = truthyStr req.userId ∧
          (∀ u : String, req.userId = some u → u ≠ "" → e.userId = u) ∧
          (truthyStr req.userId = false → e.userId = "anonymous")) := by
  constructor
  · intro h
    have hguard :
        (!truthyStr req.eventType || !truthyStr req.sessionId ||
          req.eventData.isNone) = true := by
      rcases h with h | h | h <;> simp [h, Option.isNone_iff_eq_none]
    simp [logEvent, hguard]
  · intro ht hs hd
    have hguard :
        (!truthyStr req.eventType || !truthyStr req.sessionId ||
          req.eventData.isNone) = false := by
      cases hdm : req.eventData with
      | none => exact absurd hdm hd
      | some d => simp [ht, hs, hdm]
    refine ⟨by simp [logEvent, hguard], by simp [logEvent, hguard], ?_⟩
    refine ⟨eventOf req, by simp [logEvent, hguard], rfl, ?_, ?_⟩
    · intro u hu hne
      have htr : truthyStr (some u) = true := by simp [truthyStr, hne]
      simp [eventOf, hu, htr]
    · intro hfalse
      simp [eventOf, hfalse]

/-- Witness for C1: the sample authenticated purchase request is accepted
with 201 and persists one event with `userId = "u1"`,
`isAuthenticated = true`. -/
theorem logEvent_validates_and_persists_witness :
    (logEvent reqWithUser).status = 201 ∧ (logEvent reqWithUser).success = true ∧
      ∃ e : StoredEvent, (logEvent reqWithUser).persisted = [e] ∧
        e.isAuthenticated = truthyStr reqWithUser.userId ∧
        (∀ u : String, reqWithUser.userId = some u → u ≠ "" → e.userId = u) ∧
        (truthyStr reqWithUser.userId = false → e.userId = "anonymous") :=
  (logEvent_validates_and_persists reqWithUser).2 (by decide) (by decide) (by decide)

/-- C2: a flush that takes the fetch path and fails (network error or
non-ok response) leaves the queue equal to the pre-flush events followed by
the events logged during the failed attempt, in order, with no loss or
duplication; the error handler is invoked, and the returned promise signals
failure.  All other client state is unchanged. -/
theorem flush_failure_requeues (st : LoggerState) (sync beaconAvailable : Bool)
    (net : NetOutcome) (arrivals : List ClientEvent)
    (hq : st.eventQueue ≠ [])
    (hfail : net.isFailure = true)
    (hpath : sync = false ∨ beaconAvailable = false) :
    flush st sync beaconAvailable net arrivals =
      { state := { st with eventQueue := st.eventQueue ++ arrivals }
        sendAttempted := true, errorHandlerCalled := true
        result := .failure } := by
  have hb : (sync && beaconAvailable) = false := by
    rcases hpath with h | h <;> simp [h]
  cases net with
  | ok => simp [NetOutcome.isFailure] at hfail
  | httpError code => simp [flush, hq, hb]
  | netFail => simp [flush, hq, hb]

/-- Witness for C2: a timer flush of the one-event sample state under a
network failure, with a second event logged during the attempt, requeues
both events in order and reports the failure. -/
theorem flush_failure_requeues_witness :
    flush sampleLoggerState false true .netFail [sampleClientEvent2] =
      { state := { sampleLoggerState with
          eventQueue := sampleLoggerState.eventQueue ++ [sampleClientEvent2] }
        sendAttempted := true, errorHandlerCalled := true
        result := .failure } :=
  flush_failure_requeues sampleLoggerState false true .netFail [sampleClientEvent2]
    (by decide) (by decide) (Or.inl rfl)

/-- C10: flushing with an empty queue is a no-op — no send is attempted,
the error handler is not invoked, the promise resolves, and the whole
client state (queue included) is unchanged. -/
theorem flush_empty_queue_noop (st : LoggerState) (sync beaconAvailable : Bool)
    (net : NetOutcome) (arrivals : List ClientEvent)
    (hq : st.eventQueue = []) :
    flush st sync beaconAvailable net arrivals =
      { state := st, sendAttempted := false, errorHandlerCalled := false
        result := .resolvedEmpty } := by
  simp [flush, hq]

/-- Witness for C10: flushing the sample state with an emptied queue
changes nothing. -/
theorem flush_empty_queue_noop_witness :
    flush { sampleLoggerState with eventQueue := [] } false true .ok [] =
      { state := { sampleLoggerState with eventQueue := [] }
        sendAttempted := false, errorHandlerCalled := false
        result := .resolvedEmpty } :=
  flush_empty_queue_noop { sampleLoggerState with eventQueue := [] } false true .ok []
    (by decide)

/-- C3 (behaviour of the code at the failing input): the four log query
routes documented `@access Private (apenas administradores)` are registered
with no middleware at all, so a request carrying no valid token — here, no
Authorization header, under a verifier that decodes nothing — reaches the
query handlers instead of being rejected with 401, even though the
`isAdmin` middleware exported next to them would reject exactly such a
request. -/
theorem logRoutes_admin_routes_unprotected :
    dispatchLogRoute rejectAllTokens .eventsByType none = .reachesHandler ∧
    dispatchLogRoute rejectAllTokens .counts none = .reachesHandler ∧
    dispatchLogRoute rejectAllTokens .mostViewed none = .reachesHandler ∧
    dispatchLogRoute rejectAllTokens .funnel none = .reachesHandler ∧
    isAdmin rejectAllTokens none =
      .reject 401 "Acesso não autorizado. Token não fornecido." :=
  ⟨rfl, rfl, rfl, rfl, rfl⟩

/-- C4 (counterexample): with the mock fixture substituted, the overview and
dashboard responses carry exactly the same envelope keys as the live-data
branch — `success`, `period`, `stats` resp. `success`, `dashboardData` —
with `success:true` and status 200 and no degraded-mode key of any kind, so
the caller cannot distinguish mock from authoritative data. -/
theorem mock_response_lacks_degraded_flag :
    (getOverviewStats true zeroCounts).responseKeys =
        (getOverviewStats false zeroCounts).responseKeys ∧
    (getOverviewStats true zeroCounts).responseKeys =
        ["success", "period", "stats"] ∧
    (getOverviewStats true zeroCounts).success = true ∧
    (getOverviewStats true zeroCounts).status = 200 ∧
    (getDashboardData true).responseKeys = (getDashboardData false).responseKeys ∧
    (getDashboardData true).responseKeys = ["success", "dashboardData"] ∧
    (getDashboardData true).success = true :=
  ⟨rfl, rfl, rfl, rfl, rfl, rfl, rfl⟩

/-- C4 (amended): the mock-data substitution is not surfaced in the JSON
response: whatever the availability of the fixture and the live counts, the
overview and dashboard envelopes are `200` with `success:true` and the same
fixed keys, with no degraded-mode flag; the degraded-mode notice exists only
as a server-side console log. -/
theorem mock_and_live_responses_same_shape (mockFileExists : Bool)
    (c : EventCounts) :
    (getOverviewStats mockFileExists c).status = 200 ∧
    (getOverviewStats mockFileExists c).success = true ∧
    (getOverviewStats mockFileExists c).responseKeys =
      ["success", "period", "stats"] ∧
    (getDashboardData mockFileExists).status = 200 ∧
    (getDashboardData mockFileExists).success = true ∧
    (getDashboardData mockFileExists).responseKeys =
      ["success", "dashboardData"] := by
  cases mockFileExists <;> exact ⟨rfl, rfl, rfl, rfl, rfl, rfl⟩

/-- Rounding to hundredths preserves non-negativity. -/
theorem round2_nonneg {q : ℚ} (hq : 0 ≤ q) : 0 ≤ round2 q := by
  have h0 : (0 : ℤ) ≤ Int.floor (q * 100 + 1 / 2) :=
    Int.floor_nonneg.mpr (by linarith)
  have h1 : (0 : ℚ) ≤ (Int.floor (q * 100 + 1 / 2) : ℚ) := by exact_mod_cast h0
  unfold round2
  exact div_nonneg h1 (by norm_num)

/-- Rounding to hundredths keeps values at most 100 at most 100. -/
theorem round2_le_hundred {q : ℚ} (hq : q ≤ 100) : round2 q ≤ 100 := by
  have h1 : Int.floor (q * 100 + 1 / 2) ≤ Int.floor ((100 : ℚ) * 100 + 1 / 2) :=
    Int.floor_le_floor (by linarith)
  have h2 : Int.floor ((100 : ℚ) * 100 + 1 / 2) = 10000 :=
    Int.floor_eq_iff.mpr (by norm_num)
  rw [h2] at h1
  have h3 : (Int.floor (q * 100 + 1 / 2) : ℚ) ≤ 10000 := by exact_mod_cast h1
  unfold round2
  linarith

/-- Rounding to hundredths moves a value by at most half a hundredth. -/
theorem abs_round2_sub_le (q : ℚ) : |round2 q - q| ≤ 1 / 200 := by
  have h1 : (Int.floor (q * 100 + 1 / 2) : ℚ) ≤ q * 100 + 1 / 2 := Int.floor_le _
  have h2 : q * 100 + 1 / 2 - 1 < (Int.floor (q * 100 + 1 / 2) : ℚ) :=
    Int.sub_one_lt_floor _
  unfold round2
  rw [abs_le]
  constructor <;> linarith

/-- Rounding fixes zero. -/
theorem round2_zero : round2 0 = 0 := by
  have h : Int.floor ((0 : ℚ) * 100 + 1 / 2) = 0 :=
    Int.floor_eq_iff.mpr (by norm_num)
  unfold round2
  rw [h]
  norm_num

/-- C5: for any non-negative counts with completes at most views and
completes at most adds, the reported (rounded) `conversionRate` and
`cartAbandonmentRate` of the overview computation both lie in [0, 100]. -/
theorem overview_rates_within_bounds (c : EventCounts)
    (h1 : c.checkoutCompletes ≤ c.productViews)
    (h2 : c.checkoutCompletes ≤ c.cartAdds) :
    0 ≤ (computedOverviewStats c).conversionRate ∧
      (computedOverviewStats c).conversionRate ≤ 100 ∧
      0 ≤ (computedOverviewStats c).cartAbandonmentRate ∧
      (computedOverviewStats c).cartAbandonmentRate ≤ 100 := by
  have hcr0 : 0 ≤ conversionRate c.productViews c.checkoutCompletes := by
    unfold conversionRate
    split
    · positivity
    · exact le_refl 0
  have hcr1 : conversionRate c.productViews c.checkoutCompletes ≤ 100 := by
    unfold conversionRate
    split
    · rename_i hv
      have hv2 : (0 : ℚ) < c.productViews := by exact_mod_cast hv
      have hle : (c.checkoutCompletes : ℚ) ≤ c.productViews := by exact_mod_cast h1
      rw [div_mul_eq_mul_div, div_le_iff hv2]
      nlinarith
    · norm_num
  have hab0 : 0 ≤ cartAbandonmentRate c.cartAdds c.checkoutCompletes := by
    unfold cartAbandonmentRate
    split
    · rename_i ha
      have ha2 : (0 : ℚ) < c.cartAdds := by exact_mod_cast ha
      have hle : (c.checkoutCompletes : ℚ) ≤ c.cartAdds := by exact_mod_cast h2
      have hnum : (0 : ℚ) ≤ (c.cartAdds : ℚ) - c.checkoutCompletes := by linarith
      exact mul_nonneg (div_nonneg hnum ha2.le) (by norm_num)
    · exact le_refl 0
  have hab1 : cartAbandonmentRate c.cartAdds c.checkoutCompletes ≤ 100 := by
    unfold cartAbandonmentRate
    split
    · rename_i ha
      have ha2 : (0 : ℚ) < c.cartAdds := by exact_mod_cast ha
      have hcompletes : (0 : ℚ) ≤ c.checkoutCompletes := by positivity
      rw [div_mul_eq_mul_div, div_le_iff ha2]
      nlinarith
    · norm_num
  exact ⟨round2_nonneg hcr0, round2_le_hundred hcr1,
    round2_nonneg hab0, round2_le_hundred hab1⟩

/-- Witness for C5: the sample counts (views 10, adds 8, completes 4)
yield rates in [0, 100]. -/
theorem overview_rates_within_bounds_witness :
    0 ≤ (computedOverviewStats sampleOverviewCounts).conversionRate ∧
      (computedOverviewStats sampleOverviewCounts).conversionRate ≤ 100 ∧
      0 ≤ (computedOverviewStats sampleOverviewCounts).cartAbandonmentRate ∧
      (computedOverviewStats sampleOverviewCounts).cartAbandonmentRate ≤ 100 :=
  overview_rates_within_bounds sampleOverviewCounts (by decide) (by decide)

/-- Stage rate as case analysis on the guard of `getFunnelData`. -/
theorem stageRate_eq (cur next : Nat) :
    stageRate cur next =
      if cur = 0 then 0 else round2 ((next : ℚ) / cur * 100) := by
  unfold stageRate
  rcases Nat.eq_zero_or_pos cur with hc | hc
  · simp [hc, round2_zero]
  · have hne : cur ≠ 0 := Nat.pos_iff_ne_zero.mp hc
    simp [hc, hne]

/-- C6: for every adjacent pair of funnel stages, the reported conversion
rate is the number 0 when the earlier stage's count is 0, and otherwise
`nextCount / currentCount * 100` rounded to two decimal places. -/
theorem funnel_conversion_rate_guarded (count : String → Nat) (i : Nat)
    (h : i < 4) :
    ((funnelConversionRates count).getD i ("", 0)).2 =
      if count (funnelStages.getD i "") = 0 then 0
      else round2 ((count (funnelStages.getD (i + 1) "") : ℚ) /
        (count (funnelStages.getD i "")) * 100) := by
  interval_cases i <;> exact stageRate_eq _ _

/-- Witness for C6: with the sample counts the cart_add → checkout_start
pair has an empty earlier stage and reports the rate 0. -/
theorem funnel_conversion_rate_guarded_witness :
    ((funnelConversionRates sampleFunnelCounts).getD 2 ("", 0)).2 =
      if sampleFunnelCounts (funnelStages.getD 2 "") = 0 then 0
      else round2 ((sampleFunnelCounts (funnelStages.getD 3 "") : ℚ) /
        (sampleFunnelCounts (funnelStages.getD 2 "")) * 100) :=
  funnel_conversion_rate_guarded sampleFunnelCounts 2 (by decide)

/-- C7: for every outcome of the three device-share draws (Desktop and
Mobile in 30–59, Tablet in 5–14), the normalized rounded percentages sum
to 100 within rounding epsilon (three half-hundredths). -/
theorem deviceUsage_percentages_sum_to_100 (d m t : Nat)
    (hd : 30 ≤ d ∧ d ≤ 59) (hm : 30 ≤ m ∧ m ≤ 59) (ht : 5 ≤ t ∧ t ≤ 14) :
    |(((deviceUsage d m t).map Prod.snd).sum) - 100| ≤ 3 / 200 := by
  have hdq : (30 : ℚ) ≤ d := by exact_mod_cast hd.1
  have hmq : (0 : ℚ) ≤ m := by positivity
  have htq : (0 : ℚ) ≤ t := by positivity
  simp only [deviceUsage, List.map_cons, List.map_nil, List.sum_cons,
    List.sum_nil, add_zero]
  set T : ℚ := (d : ℚ) + m + t with hT
  have hTpos : 0 < T := by rw [hT]; linarith
  have hTne : T ≠ 0 := ne_of_gt hTpos
  have hsum : (d : ℚ) / T * 100 + (m : ℚ) / T * 100 + (t : ℚ) / T * 100 = 100 := by
    have hcollect : (d : ℚ) / T * 100 + (m : ℚ) / T * 100 + (t : ℚ) / T * 100
        = ((d : ℚ) + m + t) / T * 100 := by ring
    rw [hcollect, ← hT, div_self hTne, one_mul]
  have e1 := abs_round2_sub_le ((d : ℚ) / T * 100)
  have e2 := abs_round2_sub_le ((m : ℚ) / T * 100)
  have e3 := abs_round2_sub_le ((t : ℚ) / T * 100)
  rw [abs_le] at e1 e2 e3 ⊢
  constructor <;> linarith [e1.1, e1.2, e2.1, e2.2, e3.1, e3.2]

/-- Witness for C7: draws 40, 40, 10 give percentages summing to 100
within rounding epsilon. -/
theorem deviceUsage_percentages_sum_to_100_witness :
    |(((deviceUsage 40 40 10).map Prod.snd).sum) - 100| ≤ 3 / 200 :=
  deviceUsage_percentages_sum_to_100 40 40 10 (by decide) (by decide) (by decide)

/-- C8: for a product update uploading at least one image file, setting
`keepImages` to true (string or boolean) stores the prior images followed
by the new upload paths in upload order; leaving `keepImages` absent or
not true stores exactly the new upload paths. -/
theorem updateProduct_images_append_or_replace (prior : List String)
    (keep : FormValue) (files : List String) (hfiles : files ≠ []) :
    (keepImagesTrue keep = true →
      updatedImages prior keep files = prior ++ files.map uploadPath) ∧
    (keepImagesTrue keep = false →
      updatedImages prior keep files = files.map uploadPath) := by
  have hlen : 0 < files.length := List.length_pos.mpr hfiles
  constructor <;> intro hk <;> simp [updatedImages, hlen, hk]

/-- Witness for C8: updating a one-image product with two uploads appends
under `keepImages='true'` and replaces when `keepImages` is absent. -/
theorem updateProduct_images_append_or_replace_witness :
    updatedImages ["/uploads/products/a.png"] (.str "true") ["b.png", "c.png"] =
        ["/uploads/products/a.png"] ++ ["b.png", "c.png"].map uploadPath ∧
    updatedImages ["/uploads/products/a.png"] .absent ["b.png", "c.png"] =
        ["b.png", "c.png"].map uploadPath :=
  ⟨(updateProduct_images_append_or_replace ["/uploads/products/a.png"]
      (.str "true") ["b.png", "c.png"] (by decide)).1 (by decide),
   (updateProduct_images_append_or_replace ["/uploads/products/a.png"]
      .absent ["b.png", "c.png"] (by decide)).2 (by decide)⟩

/-- C9: a login against an existing active account with a wrong password
and a login whose email matches no account produce identical 401 responses
with the generic invalid-credentials message, so the response does not
reveal whether the email exists. -/
theorem login_wrong_password_indistinguishable
    (check : String → String → Bool)
    (usersA : List StoredUser) (emailA pwA : String)
    (usersB : List StoredUser) (emailB pwB : String)
    (u : StoredUser) (hfound : findUserByEmail usersA emailA = some u)
    (hactive : u.isActive = true) (hwrong : check pwA u.password = false)
    (hmissing : findUserByEmail usersB emailB = none) :
    login check usersA emailA pwA = login check usersB emailB pwB ∧
    login check usersA emailA pwA =
      { status := 401, success := false, message := "Email ou senha inválidos"
        token := none, user := none } := by
  have hA : login check usersA emailA pwA =
      { status := 401, success := false, message := "Email ou senha inválidos"
        token := none, user := none } := by
    simp [login, hfound, hactive, hwrong]
  have hB : login check usersB emailB pwB =
      { status := 401, success := false, message := "Email ou senha inválidos"
        token := none, user := none } := by
    simp [login, hmissing]
  exact ⟨hA.trans hB.symm, hA⟩

/-- Witness for C9: a wrong-password login for the stored sample account is
indistinguishable from a login with an unknown email. -/
theorem login_wrong_password_indistinguishable_witness :
    login plainCheck [aliceUser] "alice@example.com" "wrong-guess" =
        login plainCheck [] "bob@example.com" "wrong-guess" ∧
    login plainCheck [aliceUser] "alice@example.com" "wrong-guess" =
      { status := 401, success := false, message := "Email ou senha inválidos"
        token := none, user := none } :=
  login_wrong_password_indistinguishable plainCheck [aliceUser]
    "alice@example.com" "wrong-guess" [] "bob@example.com" "wrong-guess"
    aliceUser (by decide) (by decide) (by decide) (by decide)

end PosVendas
